import Mathlib

/-
Verification of the mcp_robotics in-process agent message bus:
  src/mcp_robotics/context/mcp_message.py  (class MCPMessage)
  src/mcp_robotics/context/mcp_bus.py      (class MCPBus)
  src/mcp_robotics/main.py                 (the Flask driver loop in process_image)

The embedding is shallow: Python objects become Lean structures, the dict
backing the registry becomes a lookup function with dict get/set semantics,
and a raised exception becomes the error branch of an Except value carrying
the exception class name and its message string.
-/

namespace MCPRobotics

/-- PyVal models the small fragment of Python runtime values that flows
through the message fields: None, booleans, integers, strings and string
keyed dicts. Message content and metadata are dynamically typed in the
source, so both are embedded at this type. -/
inductive PyVal where
  | none : PyVal
  | pyBool : Bool → PyVal
  | int : Int → PyVal
  | str : String → PyVal
  | dict : List (String × PyVal) → PyVal

/-- Python truthiness for PyVal: None, False, 0, the empty string and the
empty dict are falsy; everything else is truthy. -/
def PyVal.truthy : PyVal → Bool
  | PyVal.none => false
  | PyVal.pyBool b => b
  | PyVal.int n => n != 0
  | PyVal.str s => s != ""
  | PyVal.dict l => !l.isEmpty

/-- Agent names and message targets in the source are strings or None, so
they are embedded as Option String. -/
def truthyOpt : Option String → Bool
  | Option.none => false
  | Option.some s => s != ""

/-- MCPMessage holds the four instance attributes set by
MCPMessage.__init__ (mcp_message.py lines 2 to 8). -/
structure MCPMessage where
  source : Option String
  target : Option String
  content : PyVal
  metadata : PyVal

/-- MCPMessage.make embeds MCPMessage.__init__ with an explicit metadata
argument: the body stores source, target and content unchanged and sets
self.metadata to the expression (metadata or \x7b\x7d), which keeps a
truthy metadata value and otherwise yields a fresh empty dict. -/
def MCPMessage.make (source target : Option String) (content metadata : PyVal) :
    MCPMessage :=
  { source := source
    target := target
    content := content
    metadata := if metadata.truthy then metadata else PyVal.dict [] }

/-- MCPMessage.makeDefault embeds a constructor call that omits the
metadata argument, whose Python default is None. -/
def MCPMessage.makeDefault (source target : Option String) (content : PyVal) :
    MCPMessage :=
  MCPMessage.make source target content PyVal.none

/-- PyExn models a raised Python exception as the name of its class plus
the message string passed to it; str(e) on such an exception returns the
message string. The bus only ever raises the generic class Exception. -/
structure PyExn where
  cls : String
  msg : String

/-- Agent models an object of a subclass of Agent (context/agent.py): a
name attribute and a process method that either returns an MCPMessage or
raises. Agent instances define neither a bool nor a len method, so a
retrieved Agent object is always truthy in Python. -/
structure Agent where
  name : Option String
  process : MCPMessage → Except PyExn MCPMessage

/-- MCPBus holds the single instance attribute of the Python class: the
dict self.agents, embedded as a lookup function with dict semantics. -/
structure MCPBus where
  agents : Option String → Option Agent

/-- MCPBus.init embeds MCPBus.__init__, which sets self.agents to an empty
dict: every lookup misses. -/
def MCPBus.init : MCPBus := ⟨fun _ => Option.none⟩

/-- MCPBus.register_agent embeds the one line body
self.agents[agent.name] = agent: dict assignment stores the agent under
its name key, overwriting any previous entry for that key. -/
def MCPBus.register_agent (bus : MCPBus) (agent : Agent) : MCPBus :=
  ⟨fun k => if k = agent.name then Option.some agent else bus.agents k⟩

/-- targetStr renders a target value the way a Python f-string does:
None prints as the text None, a string prints as its characters. -/
def targetStr : Option String → String
  | Option.none => "None"
  | Option.some s => s

/-- notFoundMsg is the message of the exception raised by MCPBus.send on a
registry miss, built by the f-string on mcp_bus.py line 16. -/
def notFoundMsg (t : Option String) : String :=
  "Target agent \u0027" ++ targetStr t ++ "\u0027 not found."

/-- MCPBus.send embeds mcp_bus.py lines 11 to 16: look the message target
up with self.agents.get, and if the result is truthy call its process on
the message and return the result, else raise
Exception(f-string naming the target). A found Agent object is always
truthy, so the if reduces to the success of the lookup. -/
def MCPBus.send (bus : MCPBus) (message : MCPMessage) : Except PyExn MCPMessage :=
  match bus.agents message.target with
  | Option.some target => target.process message
  | Option.none => Except.error ⟨"Exception", notFoundMsg message.target⟩

/-- MCPBus.sendTrace is MCPBus.send instrumented with the list of Agent
objects whose process method the call invokes; the result component is
proved equal to MCPBus.send below (sendTrace_fst). -/
def MCPBus.sendTrace (bus : MCPBus) (message : MCPMessage) :
    Except PyExn MCPMessage × List Agent :=
  match bus.agents message.target with
  | Option.some target => (target.process message, [target])
  | Option.none => (Except.error ⟨"Exception", notFoundMsg message.target⟩, [])

/-- MCPBus.sendState threads the mutable state visible to the body of
MCPBus.send, namely the bus object and the message object, through the
embedded statements; the body contains no assignment to either, so the
translation returns them alongside the result. -/
def MCPBus.sendState (bus : MCPBus) (message : MCPMessage) :
    Except PyExn MCPMessage × MCPBus × MCPMessage :=
  match bus.agents message.target with
  | Option.some target => (target.process message, bus, message)
  | Option.none => (Except.error ⟨"Exception", notFoundMsg message.target⟩, bus, message)

/-- Hop is one element appended to the results list by the driver loop in
main.py: the dict with the source, target and content of a response. -/
structure Hop where
  source : Option String
  target : Option String
  content : PyVal

/-- hopOf builds the results entry recorded for a response message. -/
def hopOf (m : MCPMessage) : Hop := ⟨m.source, m.target, m.content⟩

/-- RunResult is the body of the HTTP response produced by process_image:
either the success JSON holding the results list, or the error JSON built
by the blanket exception handler, which holds only str(e). -/
inductive RunResult where
  | success : List Hop → RunResult
  | failure : String → RunResult

/-- processLoop embeds the while loop of main.py lines 43 to 56 plus the
trailing append: while the response target is truthy, append the hop for
the response and send the response again; when the target is falsy the
loop exits and the final hop is appended (the response, being a message
object, is truthy, so the if on line 51 takes its then branch). A raise
inside send propagates to the handler on lines 63 to 64, which returns
the error JSON with str(e) and drops the accumulated results list. The
source loop is unbounded, so the embedding spends one unit of fuel per
iteration and yields Option.none when the fuel runs out: a run whose
value is Option.none at every fuel does not terminate. -/
def processLoop (bus : MCPBus) : Nat → MCPMessage → List Hop → Option RunResult
  | 0, response, results =>
      if truthyOpt response.target then Option.none
      else Option.some (RunResult.success (results ++ [hopOf response]))
  | Nat.succ fuel, response, results =>
      if truthyOpt response.target then
        match bus.send response with
        | Except.ok r => processLoop bus fuel r (results ++ [hopOf response])
        | Except.error e => Option.some (RunResult.failure e.msg)
      else Option.some (RunResult.success (results ++ [hopOf response]))

/-- process_image embeds the message processing part of the handler in
main.py lines 37 to 64: the initial send of the entry message, then the
driver loop on its response with an empty results list; an exception from
the initial send reaches the same blanket handler. Request parsing and
payload validation (lines 20 to 30) happen before any message exists and
are outside this embedding. -/
def process_image (bus : MCPBus) (fuel : Nat) (msg : MCPMessage) : Option RunResult :=
  match bus.send msg with
  | Except.ok response => processLoop bus fuel response []
  | Except.error e => Option.some (RunResult.failure e.msg)

/-- processLoopN is processLoop instrumented with the count of bus sends
performed so far and, on success, the terminal response message; its
result component is proved equal to processLoop below (processLoopN_fst). -/
def processLoopN (bus : MCPBus) :
    Nat → MCPMessage → List Hop → Nat → Option (RunResult × Nat × MCPMessage)
  | 0, response, results, n =>
      if truthyOpt response.target then Option.none
      else Option.some (RunResult.success (results ++ [hopOf response]), n, response)
  | Nat.succ fuel, response, results, n =>
      if truthyOpt response.target then
        match bus.send response with
        | Except.ok r => processLoopN bus fuel r (results ++ [hopOf response]) (n + 1)
        | Except.error e => Option.some (RunResult.failure e.msg, n, response)
      else Option.some (RunResult.success (results ++ [hopOf response]), n, response)

/-- process_imageN is process_image instrumented like processLoopN; the
count starts at 1 for the initial send, so on success it equals the total
number of process invocations (hops) of the run. -/
def process_imageN (bus : MCPBus) (fuel : Nat) (msg : MCPMessage) :
    Option (RunResult × Nat × MCPMessage) :=
  match bus.send msg with
  | Except.ok response => processLoopN bus fuel response [] 1
  | Except.error e => Option.some (RunResult.failure e.msg, 0, msg)

/-- sendTrace_fst: the instrumented send computes the same result as the
plain embedding of MCPBus.send. -/
theorem sendTrace_fst (bus : MCPBus) (m : MCPMessage) :
    (bus.sendTrace m).1 = bus.send m := by
  unfold MCPBus.sendTrace MCPBus.send
  cases bus.agents m.target <;> rfl

/-- processLoopN_fst: the instrumented loop computes the same run result
as the plain embedding of the driver loop. -/
theorem processLoopN_fst (bus : MCPBus) :
    ∀ (fuel : Nat) (r : MCPMessage) (acc : List Hop) (n : Nat),
      (processLoopN bus fuel r acc n).map (fun p => p.1) = processLoop bus fuel r acc := by
  intro fuel
  induction fuel with
  | zero =>
      intro r acc n
      unfold processLoopN processLoop
      by_cases h : truthyOpt r.target <;> simp [h]
  | succ k ih =>
      intro r acc n
      unfold processLoopN processLoop
      by_cases h : truthyOpt r.target
      · simp only [h, if_true]
        cases bus.send r with
        | ok r2 => exact ih r2 (acc ++ [hopOf r]) (n + 1)
        | error e => rfl
      · simp [h]

/-- process_imageN_fst: the instrumented handler computes the same run
result as the plain embedding of process_image. -/
theorem process_imageN_fst (bus : MCPBus) (fuel : Nat) (msg : MCPMessage) :
    (process_imageN bus fuel msg).map (fun p => p.1) = process_image bus fuel msg := by
  unfold process_imageN process_image
  cases bus.send msg with
  | ok r => exact processLoopN_fst bus fuel r [] 1
  | error e => rfl

/-- errCls projects the class name of a raised exception out of a send
result, Option.none when the call returned normally. -/
def errCls : Except PyExn MCPMessage → Option String
  | Except.error e => Option.some e.cls
  | Except.ok _ => Option.none

/-- RunResult.trace projects the hop list out of a run result:
Option.none when the HTTP response was the error JSON, which carries no
results list at all. -/
def RunResult.trace : RunResult → Option (List Hop)
  | RunResult.success t => Option.some t
  | RunResult.failure _ => Option.none

/-
Concrete fixtures used by the witnesses and counterexamples below. The
agents mirror the shape of the concrete agents in src/mcp_robotics/agents:
each builds its reply with the MCPMessage constructor, metadata omitted,
exactly as PlanningAgent and ControlAgent do.
-/

/-- agentP replies with a message addressed to Q carrying the same
content (the shape of Scenario A in the spec). -/
def agentP : Agent :=
  ⟨Option.some "P", fun m =>
    Except.ok (MCPMessage.makeDefault (Option.some "P") (Option.some "Q") m.content)⟩

/-- agentQ replies with a terminal message, target None, like
ControlAgent does. -/
def agentQ : Agent :=
  ⟨Option.some "Q", fun m =>
    Except.ok (MCPMessage.makeDefault (Option.some "Q") Option.none m.content)⟩

/-- busPQ registers agentP then agentQ on a fresh bus, as the module
level code of main.py registers its three agents. -/
def busPQ : MCPBus := (MCPBus.init.register_agent agentP).register_agent agentQ

/-- msgP is an entry message addressed to P, like the initial message
main.py builds on line 37. -/
def msgP : MCPMessage :=
  MCPMessage.makeDefault (Option.some "Sensor") (Option.some "P") (PyVal.str "hi")

/-- msgZ is a message addressed to the unregistered name Z. -/
def msgZ : MCPMessage :=
  MCPMessage.makeDefault (Option.some "Sensor") (Option.some "Z") (PyVal.str "x")

/-- C1: for every agent name A registered in the bus, sending a message
whose target is A invokes exactly the agent registered under A, no other
agent, and returns the result of its process call unchanged. -/
theorem C1_routing_correctness (bus : MCPBus) (A : Option String) (ag : Agent)
    (msg : MCPMessage) (hreg : bus.agents A = Option.some ag)
    (htgt : msg.target = A) :
    bus.sendTrace msg = (ag.process msg, [ag]) := by
  unfold MCPBus.sendTrace
  rw [htgt, hreg]

/-- C1 witness: on the concrete bus busPQ the name P is registered to
agentP, and sending msgP invokes exactly agentP and returns its result. -/
theorem C1_routing_correctness_witness :
    busPQ.sendTrace msgP = (agentP.process msgP, [agentP]) :=
  C1_routing_correctness busPQ (Option.some "P") agentP msgP (by rfl) (by rfl)

/-- C2 counterexample: on an empty bus, sending the message addressed to
the unregistered name Z raises the generic Python class Exception, whose
message names Z, and invokes no agent. The raised error is the builtin
Exception class, not a named TargetNotFound error, so the claim that send
fails with a named error rather than a generic exception is false on the
code (mcp_bus.py line 16 is a bare raise Exception). -/
theorem C2_counterexample :
    MCPBus.init.sendTrace msgZ =
      (Except.error ⟨"Exception", "Target agent \u0027Z\u0027 not found."⟩, []) ∧
    errCls (MCPBus.init.send msgZ) = Option.some "Exception" :=
  ⟨rfl, rfl⟩

/-- C2 amended: for every message whose target is not a key of the
registry, send raises a generic Exception whose message names the missing
target, and no agent process is invoked. -/
theorem C2_unknown_target (bus : MCPBus) (msg : MCPMessage)
    (h : bus.agents msg.target = Option.none) :
    bus.sendTrace msg =
      (Except.error ⟨"Exception", notFoundMsg msg.target⟩, []) := by
  unfold MCPBus.sendTrace
  rw [h]

/-- C2 witness: the empty bus has no entry for Z, and sending msgZ there
yields the generic exception naming Z with no agent invoked. -/
theorem C2_unknown_target_witness :
    MCPBus.init.sendTrace msgZ =
      (Except.error ⟨"Exception", notFoundMsg msgZ.target⟩, []) :=
  C2_unknown_target MCPBus.init msgZ (by rfl)

/-- C6: registering a second agent under a name already in the registry
replaces the first, so a subsequent send to that name invokes only the
newly registered agent; and registering the same agent again is
idempotent, last write wins. -/
theorem C6_registry_overwrite (bus : MCPBus) (a b : Agent) (msg : MCPMessage)
    (hname : b.name = a.name) (htgt : msg.target = a.name) :
    ((bus.register_agent a).register_agent b).sendTrace msg = (b.process msg, [b]) ∧
    (bus.register_agent a).register_agent a = bus.register_agent a := by
  constructor
  · unfold MCPBus.sendTrace MCPBus.register_agent
    simp [htgt, hname]
  · cases bus with
    | mk f =>
      unfold MCPBus.register_agent
      simp only [MCPBus.mk.injEq]
      funext k
      by_cases h : k = a.name <;> simp [h]

/-- C6 witness: registering agentQ under the name P over agentP makes a
send to P invoke only the overriding agent. -/
theorem C6_registry_overwrite_witness :
    ((MCPBus.init.register_agent agentP).register_agent
        ⟨Option.some "P", agentQ.process⟩).sendTrace msgP =
      ((⟨Option.some "P", agentQ.process⟩ : Agent).process msgP,
       [⟨Option.some "P", agentQ.process⟩]) ∧
    (MCPBus.init.register_agent agentP).register_agent agentP =
      MCPBus.init.register_agent agentP :=
  C6_registry_overwrite MCPBus.init agentP ⟨Option.some "P", agentQ.process⟩ msgP
    (by rfl) (by rfl)

/-- C7: a message constructed with metadata omitted gets the empty dict
as metadata, never None, while source, target and content are stored
exactly as supplied, with no validation of any of them. -/
theorem C7_metadata_default (source target : Option String) (content : PyVal) :
    (MCPMessage.makeDefault source target content).metadata = PyVal.dict [] ∧
    (MCPMessage.makeDefault source target content).source = source ∧
    (MCPMessage.makeDefault source target content).target = target ∧
    (MCPMessage.makeDefault source target content).content = content :=
  ⟨rfl, rfl, rfl, rfl⟩

/-- C8: the body of send neither changes the agent registry nor mutates
any field of the input message; its only effect is delegating to the
process method of the target agent, and its result agrees with the plain
embedding of send. -/
theorem C8_send_frame (bus : MCPBus) (msg : MCPMessage) :
    (bus.sendState msg).2.1 = bus ∧ (bus.sendState msg).2.2 = msg ∧
    (bus.sendState msg).1 = bus.send msg := by
  unfold MCPBus.sendState MCPBus.send
  cases bus.agents msg.target <;> exact ⟨rfl, rfl, rfl⟩

/-- C10: constructing a message with any falsy metadata argument, be it
None, the empty dict, the integer 0 or the empty string, stores the empty
dict as metadata: an explicitly supplied empty mapping is replaced and a
falsy non mapping value is discarded rather than stored or rejected. -/
theorem C10_metadata_normalization (source target : Option String)
    (content m : PyVal) (hfalsy : m.truthy = false) :
    (MCPMessage.make source target content m).metadata = PyVal.dict [] := by
  unfold MCPMessage.make
  rw [hfalsy]
  rfl

/-- C10 witness: the four falsy metadata arguments named by the claim all
normalize to the empty dict. -/
theorem C10_metadata_normalization_witness :
    (MCPMessage.make (Option.some "s") (Option.some "t") (PyVal.str "c")
        PyVal.none).metadata = PyVal.dict [] ∧
    (MCPMessage.make (Option.some "s") (Option.some "t") (PyVal.str "c")
        (PyVal.dict [])).metadata = PyVal.dict [] ∧
    (MCPMessage.make (Option.some "s") (Option.some "t") (PyVal.str "c")
        (PyVal.int 0)).metadata = PyVal.dict [] ∧
    (MCPMessage.make (Option.some "s") (Option.some "t") (PyVal.str "c")
        (PyVal.str "")).metadata = PyVal.dict [] :=
  ⟨C10_metadata_normalization _ _ _ PyVal.none (by rfl),
   C10_metadata_normalization _ _ _ (PyVal.dict []) (by rfl),
   C10_metadata_normalization _ _ _ (PyVal.int 0) (by rfl),
   C10_metadata_normalization _ _ _ (PyVal.str "") (by rfl)⟩

/-- agentA routes unconditionally to B. -/
def agentA : Agent :=
  ⟨Option.some "A", fun m =>
    Except.ok (MCPMessage.makeDefault (Option.some "A") (Option.some "B") m.content)⟩

/-- agentB routes unconditionally to A. -/
def agentB : Agent :=
  ⟨Option.some "B", fun m =>
    Except.ok (MCPMessage.makeDefault (Option.some "B") (Option.some "A") m.content)⟩

/-- busAB registers the two mutually routing agents. -/
def busAB : MCPBus := (MCPBus.init.register_agent agentA).register_agent agentB

/-- msgA is an entry message addressed to A. -/
def msgA : MCPMessage :=
  MCPMessage.makeDefault (Option.some "Sensor") (Option.some "A") (PyVal.str "go")

/-- busAB_send_A: on busAB, a message addressed to A comes back addressed
to B with the same content. -/
theorem busAB_send_A (r : MCPMessage) (h : r.target = Option.some "A") :
    busAB.send r =
      Except.ok (MCPMessage.makeDefault (Option.some "A") (Option.some "B") r.content) := by
  unfold MCPBus.send busAB MCPBus.register_agent MCPBus.init
  rw [h]
  rfl

/-- busAB_send_B: on busAB, a message addressed to B comes back addressed
to A with the same content. -/
theorem busAB_send_B (r : MCPMessage) (h : r.target = Option.some "B") :
    busAB.send r =
      Except.ok (MCPMessage.makeDefault (Option.some "B") (Option.some "A") r.content) := by
  unfold MCPBus.send busAB MCPBus.register_agent MCPBus.init
  rw [h]
  rfl

/-- busAB_loop: on busAB the embedded while loop exhausts any amount of
fuel when the current response is addressed to A or to B: the source loop
never exits. -/
theorem busAB_loop :
    ∀ (fuel : Nat) (r : MCPMessage) (acc : List Hop),
      (r.target = Option.some "A" ∨ r.target = Option.some "B") →
      processLoop busAB fuel r acc = Option.none := by
  intro fuel
  induction fuel with
  | zero =>
      intro r acc h
      unfold processLoop
      rcases h with h | h <;> rw [h] <;> rfl
  | succ k ih =>
      intro r acc h
      unfold processLoop
      rcases h with h | h
      · have ht : truthyOpt r.target = true := by rw [h]; rfl
        rw [ht, busAB_send_A r h]
        simp only [if_true]
        exact ih _ _ (Or.inr (by rfl))
      · have ht : truthyOpt r.target = true := by rw [h]; rfl
        rw [ht, busAB_send_B r h]
        simp only [if_true]
        exact ih _ _ (Or.inl (by rfl))

/-- C3: the driver loop in main.py has no hop bound at all: on the two
agent cycle A to B to A the run never terminates, at any fuel, instead of
stopping after a configured maximum number of hops with a HopLimitExceeded
failure. The spec itself flags the missing bound as a latent infinite
loop bug of the source (its section 9), so the code, not the claim, is
wrong here. -/
theorem C3_no_hop_bound :
    ∀ fuel : Nat, process_image busAB fuel msgA = Option.none := by
  intro fuel
  unfold process_image
  rw [busAB_send_A msgA (by rfl)]
  exact busAB_loop fuel _ [] (Or.inr (by rfl))

/-- processLoopN_success: invariant of the instrumented loop: a run that
ends in the success JSON has appended one hop per successful send beyond
the starting accumulator, ends its trace with the hop of the terminal
response, and that terminal response has a falsy target. -/
theorem processLoopN_success (bus : MCPBus) :
    ∀ (fuel : Nat) (r : MCPMessage) (acc : List Hop) (n : Nat)
      (t : List Hop) (m : Nat) (last : MCPMessage),
      processLoopN bus fuel r acc n = Option.some (RunResult.success t, m, last) →
      t.length + n = acc.length + m + 1 ∧
      t.getLast? = Option.some (hopOf last) ∧
      truthyOpt last.target = false := by
  intro fuel
  induction fuel with
  | zero =>
      intro r acc n t m last h
      unfold processLoopN at h
      by_cases ht : truthyOpt r.target
      · rw [if_pos ht] at h
        exact absurd h (by simp)
      · rw [if_neg ht] at h
        simp only [Option.some.injEq, Prod.mk.injEq, RunResult.success.injEq] at h
        obtain ⟨h1, h2, h3⟩ := h
        subst h1
        subst h2
        subst h3
        refine ⟨?_, ?_, by simpa using ht⟩
        · simp only [List.length_append, List.length_singleton]
          omega
        · rw [List.getLast?_concat]
  | succ k ih =>
      intro r acc n t m last h
      unfold processLoopN at h
      by_cases ht : truthyOpt r.target
      · rw [if_pos ht] at h
        cases hs : bus.send r with
        | ok r2 =>
            rw [hs] at h
            have := ih r2 (acc ++ [hopOf r]) (n + 1) t m last h
            obtain ⟨e1, e2, e3⟩ := this
            refine ⟨?_, e2, e3⟩
            simp only [List.length_append, List.length_singleton] at e1
            omega
        | error e =>
            rw [hs] at h
            exact absurd h (by simp)
      · rw [if_neg ht] at h
        simp only [Option.some.injEq, Prod.mk.injEq, RunResult.success.injEq] at h
        obtain ⟨h1, h2, h3⟩ := h
        subst h1
        subst h2
        subst h3
        refine ⟨?_, ?_, by simpa using ht⟩
        · simp only [List.length_append, List.length_singleton]
          omega
        · rw [List.getLast?_concat]

/-- C4: whenever a run of the driver loop reaches an agent whose reply
has an empty or absent target, the loop ends there with the success JSON:
the returned trace has exactly one entry per hop taken (the terminal hop
included), its last entry is the hop of the terminal response, and in
particular the content of the last trace entry is the content of the last
message an agent returned. -/
theorem C4_terminal_detection (bus : MCPBus) (fuel : Nat) (msg : MCPMessage)
    (t : List Hop) (hops : Nat) (last : MCPMessage)
    (h : process_imageN bus fuel msg = Option.some (RunResult.success t, hops, last)) :
    t.length = hops ∧
    t.getLast? = Option.some (hopOf last) ∧
    t.getLast?.map Hop.content = Option.some last.content ∧
    truthyOpt last.target = false := by
  unfold process_imageN at h
  cases hs : bus.send msg with
  | ok r =>
      rw [hs] at h
      have := processLoopN_success bus fuel r [] 1 t hops last h
      obtain ⟨e1, e2, e3⟩ := this
      simp only [List.length_nil] at e1
      refine ⟨by omega, e2, ?_, e3⟩
      rw [e2]
      rfl
  | error e =>
      rw [hs] at h
      exact absurd h (by simp)

/-- C4 witness: on busPQ the entry message reaches agentP then the
terminal reply of agentQ: two hops, a trace of length two ending with the
terminal hop whose content is the content agentQ returned. -/
theorem C4_terminal_detection_witness :
    ([hopOf (MCPMessage.makeDefault (Option.some "P") (Option.some "Q") (PyVal.str "hi")),
      hopOf (MCPMessage.makeDefault (Option.some "Q") Option.none (PyVal.str "hi"))].length = 2) ∧
    ([hopOf (MCPMessage.makeDefault (Option.some "P") (Option.some "Q") (PyVal.str "hi")),
      hopOf (MCPMessage.makeDefault (Option.some "Q") Option.none (PyVal.str "hi"))].getLast? =
      Option.some (hopOf (MCPMessage.makeDefault (Option.some "Q") Option.none (PyVal.str "hi")))) ∧
    ([hopOf (MCPMessage.makeDefault (Option.some "P") (Option.some "Q") (PyVal.str "hi")),
      hopOf (MCPMessage.makeDefault (Option.some "Q") Option.none (PyVal.str "hi"))].getLast?.map
        Hop.content =
      Option.some (MCPMessage.makeDefault (Option.some "Q") Option.none (PyVal.str "hi")).content) ∧
    truthyOpt (MCPMessage.makeDefault (Option.some "Q") Option.none (PyVal.str "hi")).target = false :=
  C4_terminal_detection busPQ 10 msgP
    [hopOf (MCPMessage.makeDefault (Option.some "P") (Option.some "Q") (PyVal.str "hi")),
     hopOf (MCPMessage.makeDefault (Option.some "Q") Option.none (PyVal.str "hi"))]
    2 (MCPMessage.makeDefault (Option.some "Q") Option.none (PyVal.str "hi")) (by rfl)

/-- agentF is registered under the name Q and raises inside process, the
shape of Scenario C in the spec. -/
def agentF : Agent :=
  ⟨Option.some "Q", fun _ => Except.error ⟨"Exception", "Planning failed"⟩⟩

/-- busPF registers agentP, then the failing agentF under Q. -/
def busPF : MCPBus := (MCPBus.init.register_agent agentP).register_agent agentF

/-- C5 counterexample: on busPF the run completes one hop (agentP hands
off to Q) before agentF raises; the HTTP response is the error JSON
holding only str(e), and its trace projection is Option.none: the
accumulated partial trace, here the completed hop from P to Q, is
discarded by the blanket handler of main.py lines 63 to 64, so the claim
that a failing run surfaces the partial trace alongside the reason is
false on the code. -/
theorem C5_counterexample :
    process_image busPF 10 msgP = Option.some (RunResult.failure "Planning failed") ∧
    (process_image busPF 10 msgP).map RunResult.trace =
      Option.some Option.none :=
  ⟨rfl, rfl⟩

/-- C5 amended: when the bus raises mid run, for a missing target or a
failing agent alike, the run aborts with the error JSON that carries the
failure reason str(e) and nothing else: the hops accumulated before the
failure do not appear in the result, whatever they were. -/
theorem C5_failure_reason_only (bus : MCPBus) (fuel : Nat) (r : MCPMessage)
    (acc : List Hop) (e : PyExn) (ht : truthyOpt r.target = true)
    (hs : bus.send r = Except.error e) :
    processLoop bus (fuel + 1) r acc = Option.some (RunResult.failure e.msg) := by
  unfold processLoop
  rw [ht, hs]
  rfl

/-- C5 witness: the reply of agentP to the entry message is addressed to
Q, where agentF raises; the loop step returns the failure JSON even
though one hop had been accumulated. -/
theorem C5_failure_reason_only_witness :
    processLoop busPF 10
      (MCPMessage.makeDefault (Option.some "P") (Option.some "Q") (PyVal.str "hi"))
      [hopOf (MCPMessage.makeDefault (Option.some "P") (Option.some "Q") (PyVal.str "hi"))] =
      Option.some (RunResult.failure "Planning failed") :=
  C5_failure_reason_only busPF 9
    (MCPMessage.makeDefault (Option.some "P") (Option.some "Q") (PyVal.str "hi"))
    [hopOf (MCPMessage.makeDefault (Option.some "P") (Option.some "Q") (PyVal.str "hi"))]
    ⟨"Exception", "Planning failed"⟩ (by rfl) (by rfl)

/-- agentNil is registered under the falsy key None. -/
def agentNil : Agent :=
  ⟨Option.none, fun m =>
    Except.ok (MCPMessage.makeDefault (Option.some "N") Option.none m.content)⟩

/-- busNil is a bus whose only entry sits under the key None. -/
def busNil : MCPBus := MCPBus.init.register_agent agentNil

/-- msgNil is a terminal message, target None. -/
def msgNil : MCPMessage :=
  MCPMessage.makeDefault (Option.some "Sensor") Option.none (PyVal.str "x")

/-- C9 counterexample: with an agent registered under the exact falsy key
None, sending a message whose target is None does not raise: the dict
lookup finds the agent, the found object is truthy, and its process runs.
This falsifies the part of the claim that says send raises even if an
agent is registered under that exact falsy key: the truthiness test on
mcp_bus.py line 13 is applied to the retrieved agent object, never to the
target value. -/
theorem C9_counterexample :
    busNil.sendTrace msgNil =
      (Except.ok (MCPMessage.makeDefault (Option.some "N") Option.none (PyVal.str "x")),
       [agentNil]) :=
  rfl

/-- C9 amended: a message with a falsy target (None or the empty string)
raises the not found error and invokes no agent exactly when the registry
has no entry under that key; when an agent is registered under the exact
falsy key, send invokes it. Terminal messages are therefore detected by
the caller testing the target, as the driver loop does, never by send. -/
theorem C9_falsy_target (bus : MCPBus) (msg : MCPMessage)
    (hfalsy : truthyOpt msg.target = false) :
    (bus.agents msg.target = Option.none →
      bus.sendTrace msg =
        (Except.error ⟨"Exception", notFoundMsg msg.target⟩, [])) ∧
    (∀ ag : Agent, bus.agents msg.target = Option.some ag →
      bus.sendTrace msg = (ag.process msg, [ag])) := by
  constructor
  · intro h
    unfold MCPBus.sendTrace
    rw [h]
  · intro ag h
    unfold MCPBus.sendTrace
    rw [h]

/-- C9 witness: the target of msgNil is falsy; on the empty bus the send
raises with no invocation, and on busNil the agent under the key None is
invoked. -/
theorem C9_falsy_target_witness :
    MCPBus.init.sendTrace msgNil =
      (Except.error ⟨"Exception", notFoundMsg msgNil.target⟩, []) ∧
    busNil.sendTrace msgNil = (agentNil.process msgNil, [agentNil]) :=
  ⟨(C9_falsy_target MCPBus.init msgNil (by rfl)).1 (by rfl),
   (C9_falsy_target busNil msgNil (by rfl)).2 agentNil (by rfl)⟩

end MCPRobotics
